import Mathlib

/-!
# Verification of the krnl-x402 facilitator core

This file gives a shallow embedding, in Lean 4, of the payment-authorization
verification engine and the asynchronous settlement workflow tracker of the
krnl-x402 repository, and proves (or refutes) the frozen specification claims
about them.

Embedding conventions:
* byte strings (hex data, addresses, hashes, signatures) are modelled as
  `String`; parsing of hex data is case-insensitive, so canonical byte
  equality of two textual addresses is equality after `String.toLower`;
* `uint256` quantities (token values, unix timestamps, balances) are `Nat`
  (the source compares them with `BigInt`, never overflowing arithmetic);
* fallible external calls (chain reads, the workflow engine) return
  `Except Unit` or `Except String` values supplied by an explicit
  environment record, mirroring promise resolution/rejection;
* the process-wide `Map` stores of the source become association lists with
  JavaScript `Map.set` semantics (replace in place, otherwise append).
-/

/-! ## Workflow status and tracking data (src/lib/krnl-client.ts, src/lib/workflow-store.ts) -/

/-- The four workflow states of the source union type
`'pending' | 'running' | 'completed' | 'failed'` (spec names:
PENDING_EXECUTION, RUNNING, COMPLETED, FAILED). -/
inductive WStatus where
  | pending
  | running
  | completed
  | failed
deriving DecidableEq, Repr

/-- Model of `SettleResponse` of the x402 types, as used by the settle path. -/
structure SettleResponse where
  success : Bool
  errorReason : Option String
  transaction : String
  network : String
  payer : Option String
deriving DecidableEq, Repr

/-- Model of `WorkflowStatus` returned by `KRNLClient.getWorkflowStatus`: the mapped
status, the job id, the settlement transaction hash when completed, the
error message when failed, and the `result.network` / `result.payer`
fields read by `pollAndUpdate`. -/
structure WorkflowStatus where
  status : WStatus
  workflowId : String
  transactionHash : Option String
  errorMsg : Option String
  resultNetwork : Option String
  resultPayer : Option String
deriving DecidableEq, Repr

/-- Model of `WorkflowTracking` entries of the nonce-keyed store
(src/lib/workflow-store.ts). -/
structure WorkflowTracking where
  workflowId : String
  paymentNonce : String
  startedAt : Nat
  status : WStatus
  workflowStatus : Option WorkflowStatus
  settleResult : Option SettleResponse
deriving DecidableEq, Repr

/-- The in-memory `workflowStore : Map<string, WorkflowTracking>`,
modelled as an association list. -/
abbrev WorkflowStore := List (String × WorkflowTracking)

/-- JavaScript `Map.get`. -/
def storeGet (s : WorkflowStore) (k : String) : Option WorkflowTracking :=
  match s with
  | [] => none
  | p :: rest => if p.1 = k then some p.2 else storeGet rest k

/-- JavaScript `Map.set`: replace the value at an existing key in place,
otherwise append a new binding. -/
def storeSet (s : WorkflowStore) (k : String) (v : WorkflowTracking) : WorkflowStore :=
  match s with
  | [] => [(k, v)]
  | p :: rest =>
      if p.1 = k then (k, v) :: rest
      else p :: storeSet rest k v

/-- Number of bindings a store holds for key `k`. -/
def storeCount (s : WorkflowStore) (k : String) : Nat :=
  match s with
  | [] => 0
  | p :: rest => (if p.1 = k then 1 else 0) + storeCount rest k

/-- Model of `trackWorkflow(paymentNonce, workflowId)` (src/lib/workflow-store.ts):
unconditionally `set` a fresh entry with status `'pending'`.  `now` stands
for `Date.now()`. -/
def trackWorkflow (s : WorkflowStore) (paymentNonce workflowId : String) (now : Nat) :
    WorkflowStore :=
  storeSet s paymentNonce
    { workflowId := workflowId
      paymentNonce := paymentNonce
      startedAt := now
      status := .pending
      workflowStatus := none
      settleResult := none }

/-- Model of `updateWorkflowStatus(paymentNonce, status, workflowStatus?, settleResult?)`
(src/lib/workflow-store.ts): if an entry exists, overwrite its `status`,
`workflowStatus` and `settleResult` fields (omitted optional arguments become
`undefined`, i.e. `none`); if no entry exists, do nothing. -/
def updateWorkflowStatus (s : WorkflowStore) (paymentNonce : String) (status : WStatus)
    (workflowStatus : Option WorkflowStatus) (settleResult : Option SettleResponse) :
    WorkflowStore :=
  match storeGet s paymentNonce with
  | some w =>
      storeSet s paymentNonce
        { w with status := status, workflowStatus := workflowStatus,
                 settleResult := settleResult }
  | none => s

/-! ### Basic store lemmas -/

theorem storeGet_storeSet_self (s : WorkflowStore) (k : String) (v : WorkflowTracking) :
    storeGet (storeSet s k v) k = some v := by
  induction s with
  | nil => simp [storeSet, storeGet]
  | cons p rest ih =>
      by_cases h : p.1 = k
      · simp [storeSet, storeGet, h]
      · simpa [storeSet, storeGet, h] using ih

theorem storeGet_storeSet_other (s : WorkflowStore) (k k' : String) (v : WorkflowTracking)
    (hk : k' ≠ k) : storeGet (storeSet s k v) k' = storeGet s k' := by
  have hkk' : ¬ k = k' := fun hh => hk hh.symm
  induction s with
  | nil => simp [storeSet, storeGet, hkk']
  | cons p rest ih =>
      by_cases h : p.1 = k
      · by_cases h' : p.1 = k'
        · exact absurd (h'.symm.trans h) hk
        · simp [storeSet, storeGet, h, h', hkk']
      · by_cases h' : p.1 = k'
        · simp [storeSet, storeGet, h, h', hkk', hk]
        · simpa [storeSet, storeGet, h, h'] using ih

theorem storeCount_storeSet_present (s : WorkflowStore) (k : String) (v : WorkflowTracking)
    (h : storeGet s k ≠ none) : storeCount (storeSet s k v) k = storeCount s k := by
  induction s with
  | nil => simp [storeGet] at h
  | cons p rest ih =>
      by_cases hp : p.1 = k
      · simp [storeSet, storeCount, hp]
      · have h' : storeGet rest k ≠ none := by
          simpa [storeGet, hp] using h
        have := ih h'
        simp [storeSet, storeCount, hp, this]

theorem storeCount_storeSet_absent (s : WorkflowStore) (k : String) (v : WorkflowTracking)
    (h : storeGet s k = none) : storeCount (storeSet s k v) k = storeCount s k + 1 := by
  induction s with
  | nil => simp [storeSet, storeCount]
  | cons p rest ih =>
      by_cases hp : p.1 = k
      · exfalso
        simp [storeGet, hp] at h
      · have h' : storeGet rest k = none := by
          simpa [storeGet, hp] using h
        have := ih h'
        simp only [storeSet, storeCount, if_neg hp, this]
        omega

theorem storeGet_none_of_count_zero (s : WorkflowStore) (k : String)
    (h : storeCount s k = 0) : storeGet s k = none := by
  induction s with
  | nil => simp [storeGet]
  | cons p rest ih =>
      by_cases hp : p.1 = k
      · exfalso
        simp [storeCount, hp] at h
      · have h' : storeCount rest k = 0 := by
          simpa [storeCount, hp] using h
        simpa [storeGet, hp] using ih h'

/-! ## Payment data model (x402 types, as consumed by the facilitator) -/

/-- The EIP-3009 `TransferWithAuthorization` fields of the exact-scheme EVM
payload.  Addresses and the 32-byte nonce are hex strings; `value`,
`validAfter` and `validBefore` are `uint256` quantities (the source converts
them with `BigInt` before comparing). -/
structure Authorization where
  from_ : String
  to_ : String
  value : Nat
  validAfter : Nat
  validBefore : Nat
  nonce : String
deriving DecidableEq, Repr

/-- Model of `PaymentPayload` restricted to the fields the facilitator reads:
the scheme tag and the exact-EVM payload (authorization plus signature). -/
structure PaymentPayload where
  scheme : String
  authorization : Authorization
  signature : String
deriving DecidableEq, Repr

/-- Model of `PaymentRequirements` restricted to the fields the facilitator reads.
The optional `extra` domain override is only logged by the source (the
signing hash uses the domain separator fetched from the token contract),
so it is omitted here. -/
structure PaymentRequirements where
  scheme : String
  network : String
  asset : String
  payTo : String
  maxAmountRequired : Nat
deriving DecidableEq, Repr

/-- Model of `VerifyResponse` of the x402 types. -/
structure VerifyResponse where
  isValid : Bool
  invalidReason : Option String
  payer : Option String
deriving DecidableEq, Repr

/-! ## Network registry (src/facilitator/verify/krnl-verify.ts, NETWORK_CONFIG) -/

/-- One `NETWORK_CONFIG` record: chain name (used only in logs), chain id,
USDC contract address and its EIP-712 domain name/version defaults. -/
structure NetworkConfig where
  chainName : String
  chainId : Nat
  usdcAddress : String
  usdcName : String
  usdcVersion : String
deriving DecidableEq, Repr

/-- The `NETWORK_CONFIG` table of src/facilitator/verify/krnl-verify.ts. -/
def NETWORK_CONFIG : List (String × NetworkConfig) :=
  [ ("ethereum-sepolia",
      { chainName := "Sepolia", chainId := 11155111,
        usdcAddress := "0x1c7D4B196Cb0C7B01d743Fbc6116a902379C7238",
        usdcName := "USDC", usdcVersion := "2" }),
    ("base-sepolia",
      { chainName := "Base Sepolia", chainId := 84532,
        usdcAddress := "0x036CbD53842c5426634e7929541eC2318f3dCF7e",
        usdcName := "USDC", usdcVersion := "2" }),
    ("optimism-sepolia",
      { chainName := "OP Sepolia", chainId := 11155420,
        usdcAddress := "0x5fd84259d66Cd46123540766Be93DFE6D43130D7",
        usdcName := "USD Coin", usdcVersion := "2" }),
    ("arbitrum-sepolia",
      { chainName := "Arbitrum Sepolia", chainId := 421614,
        usdcAddress := "0x75faf114eafb1BDbe2F0316DF893fd58CE46AA4d",
        usdcName := "USD Coin", usdcVersion := "2" }),
    ("polygon-amoy",
      { chainName := "Polygon Amoy", chainId := 80002,
        usdcAddress := "0x41E94Eb019C0762f9Bfcf9Fb1E58725BfB0e7582",
        usdcName := "USDC", usdcVersion := "2" }) ]

/-- Lowercasing on the string byte model: `String.toLower`, written out over
the character list so that concrete instances evaluate by computation. -/
def toLowerStr (s : String) : String := String.mk (s.data.map Char.toLower)

/-- Model of `NETWORK_CONFIG[paymentRequirements.network.toLowerCase()]`. -/
def networkLookup (network : String) : Option NetworkConfig :=
  match NETWORK_CONFIG.find? (fun p => p.1 == toLowerStr network) with
  | some p => some p.2
  | none => none

/-! ## Chain environment

All chain reads performed by `verifyPaymentForKRNL` via the viem public
client, collected into one record.  `keccak256` is kept abstract (an
arbitrary function on the hex-string byte model); an `.error` result
models a rejected promise. -/

structure ChainEnv where
  keccak256 : String → String
  /-- Model of `readContract DOMAIN_SEPARATOR()` on the token contract. -/
  domainSeparatorOf : String → Except Unit String
  /-- Model of `getBytecode` at an address; `none` models `undefined`. -/
  getBytecode : String → Except Unit (Option String)
  /-- Model of `readContract isValidSignature(hash, signature)` on a smart account:
  the returned magic value, or `.error` for a revert. -/
  isValidSignature1271 : String → String → String → Except Unit String
  /-- ECDSA public-key recovery: digest and signature to recovered address
  (`.error` for a malformed signature). -/
  recoverAddress : String → String → Except Unit String
  /-- Model of `readContract balanceOf(account)` on the token contract. -/
  balanceOf : String → String → Except Unit Nat
  /-- Model of `Math.floor(Date.now() / 1000)`. -/
  now : Nat

/-! ## EIP-712 signing-hash pipeline (krnl-verify.ts lines 160 to 204) -/

/-- The ASCII type string hashed into `TRANSFER_WITH_AUTHORIZATION_TYPEHASH`. -/
def transferWithAuthorizationTypeString : String :=
  "TransferWithAuthorization(address from,address to,uint256 value,uint256 validAfter,uint256 validBefore,bytes32 nonce)"

def TRANSFER_WITH_AUTHORIZATION_TYPEHASH (env : ChainEnv) : String :=
  env.keccak256 transferWithAuthorizationTypeString

/-- One 32-byte word of `encodeAbiParameters` holding 32-byte data or an
address (left-padded).  Hex-string parsing is case-insensitive, so the
word canonicalizes its operand by lowercasing; the trailing separator
keeps words from running together in the string byte model. -/
def abiWord32 (w : String) : String := toLowerStr w ++ ";"

/-- One 32-byte word of `encodeAbiParameters` holding a `uint256`. -/
def abiWordUint (n : Nat) : String := toString n ++ ";"

/-- Model of `encodeAbiParameters('bytes32, address, address, uint256, uint256,
uint256, bytes32', ...)`: the concatenation of seven 32-byte words. -/
def encodeAbi7 (typehash fromA toA : String) (value validAfter validBefore : Nat)
    (nonce : String) : String :=
  abiWord32 typehash ++ abiWord32 fromA ++ abiWord32 toA ++ abiWordUint value ++
    abiWordUint validAfter ++ abiWordUint validBefore ++ abiWord32 nonce

/-- The final EIP-712 signing hash:
`keccak256(encodePacked(0x19, 0x01, domainSeparator, structHash))`, where
the domain separator is fetched from the token contract
(`DOMAIN_SEPARATOR()`) and
`structHash = keccak256(encodeAbi7(typehash, from, to, value, validAfter,
validBefore, nonce))`. -/
def eip712HashOf (env : ChainEnv) (auth : Authorization) (asset : String) :
    Except Unit String := do
  let domainSeparator ← env.domainSeparatorOf asset
  let structHash := env.keccak256
    (encodeAbi7 (TRANSFER_WITH_AUTHORIZATION_TYPEHASH env)
      auth.from_ auth.to_ auth.value auth.validAfter auth.validBefore auth.nonce)
  pure (env.keccak256 ("1901" ++ domainSeparator ++ structHash))

/-- viem `hashMessage` on a `raw` 32-byte payload: the EIP-191
personal-message header `\x19Ethereum Signed Message:\n32` is prepended to
the payload before hashing.  Modelled from viem; EIP-191 is a fixed
protocol behavior. -/
def hashMessageRaw (env : ChainEnv) (data : String) : String :=
  env.keccak256 ("19Ethereum Signed Message:\n32" ++ data)

def EIP1271_MAGIC_VALUE : String := "0x1626ba7e"

/-- viem `getAddress` returns the canonical (EIP-55 checksummed) form of a
hex address; two addresses have the same canonical form exactly when they
agree up to letter case, so the model canonicalizes by lowercasing. -/
def getAddress (a : String) : String := toLowerStr a

/-- Steps 4 of `verifyPaymentForKRNL` (krnl-verify.ts lines 160 to 243):
compute the EIP-712 signing hash, classify the signer by `getBytecode`
(`code !== undefined && code !== '0x'` means smart contract), then
 * smart-contract path: `isValidSignature(eip712Hash, signature)` must
   return the EIP-1271 magic value; a revert is caught as invalid;
 * simple-account path: viem `verifyMessage(from, raw eip712Hash,
   signature)`, i.e. the address recovered over the EIP-191
   personal-message digest of the signing hash must equal `from`
   (case-insensitively); a recovery error is caught as invalid.
An `.error` result models a rejection (domain-separator read or bytecode
read) that reaches the outer `try` of `verifyPaymentForKRNL`. -/
def signatureValid (env : ChainEnv) (auth : Authorization) (signature asset : String) :
    Except Unit Bool := do
  let eip712Hash ← eip712HashOf env auth asset
  let code ← env.getBytecode auth.from_
  let isContract := match code with
    | some c => decide (c ≠ "0x")
    | none => false
  if isContract then
    pure (match env.isValidSignature1271 auth.from_ eip712Hash signature with
      | .ok magicValue => decide (magicValue = EIP1271_MAGIC_VALUE)
      | .error _ => false)
  else
    pure (match env.recoverAddress (hashMessageRaw env eip712Hash) signature with
      | .ok recovered => decide (toLowerStr recovered = toLowerStr auth.from_)
      | .error _ => false)

/-! ## The verification checklist (krnl-verify.ts, verifyPaymentForKRNL) -/

/-- Model of `verifyPaymentForKRNL(paymentPayload, paymentRequirements)`
(src/facilitator/verify/krnl-verify.ts): the ordered, short-circuiting
checklist.  A rejected chain read inside the signature step reaches the
outer `catch`, which reports `invalid_network` (the catch-all of the
source).  The balance check is best-effort: a rejected `balanceOf` read is
caught locally and the check is skipped. -/
def verifyPaymentForKRNL (env : ChainEnv) (paymentPayload : PaymentPayload)
    (paymentRequirements : PaymentRequirements) : VerifyResponse :=
  let authorization := paymentPayload.authorization
  -- 1. verify scheme
  if paymentPayload.scheme ≠ "exact" ∨ paymentRequirements.scheme ≠ "exact" then
    { isValid := false, invalidReason := some "unsupported_scheme",
      payer := some authorization.from_ }
  else
    -- 2. get network configuration
    match networkLookup paymentRequirements.network with
    | none =>
        { isValid := false, invalidReason := some "invalid_network",
          payer := some authorization.from_ }
    | some _networkConfig =>
      -- 4. verify EIP-712 signature (EOA or smart contract via EIP-1271)
      match signatureValid env authorization paymentPayload.signature
          paymentRequirements.asset with
      | .error _ =>
          -- rejected chain read: outer catch, reported as invalid_network
          { isValid := false, invalidReason := some "invalid_network",
            payer := some authorization.from_ }
      | .ok false =>
          { isValid := false,
            invalidReason := some "invalid_exact_evm_payload_signature",
            payer := some authorization.from_ }
      | .ok true =>
        -- 5. verify recipient matches
        if getAddress authorization.to_ ≠ getAddress paymentRequirements.payTo then
          { isValid := false,
            invalidReason := some "invalid_exact_evm_payload_recipient_mismatch",
            payer := some authorization.from_ }
        -- 6. validBefore must be at least 6 seconds in the future
        else if authorization.validBefore < env.now + 6 then
          { isValid := false,
            invalidReason := some "invalid_exact_evm_payload_authorization_valid_before",
            payer := some authorization.from_ }
        -- 7. validAfter must not be in the future
        else if env.now < authorization.validAfter then
          { isValid := false,
            invalidReason := some "invalid_exact_evm_payload_authorization_valid_after",
            payer := some authorization.from_ }
        else
          -- 9. authorization value must cover the required amount
          let valueCheck : VerifyResponse :=
            if authorization.value < paymentRequirements.maxAmountRequired then
              { isValid := false,
                invalidReason := some "invalid_exact_evm_payload_authorization_value",
                payer := some authorization.from_ }
            else
              { isValid := true, invalidReason := none,
                payer := some authorization.from_ }
          -- 8. balance check, best-effort (skipped when the read rejects)
          match env.balanceOf paymentRequirements.asset authorization.from_ with
          | .ok balance =>
              if balance < paymentRequirements.maxAmountRequired then
                { isValid := false, invalidReason := some "insufficient_funds",
                  payer := some authorization.from_ }
              else valueCheck
          | .error _ => valueCheck

/-! ## Workflow polling (src/lib/krnl-client.ts, pollWorkflowUntilComplete) -/

/-- Outcome of one `getWorkflowStatus` call during polling: a mapped status
object, or a rejected request (`getWorkflowStatus` rethrows transport
errors as `Failed to get workflow status`). -/
inductive PollResp where
  | ok (status : WorkflowStatus)
  | throw (msg : String)
deriving DecidableEq, Repr

/-- Model of `pollWorkflowUntilComplete(workflowId, maxWaitMs, pollIntervalMs)`:
one `getWorkflowStatus` call per interval tick while within `maxWaitMs`.
The list holds the per-tick outcomes that fit inside the time budget;
exhausting it models `Date.now() - startTime >= maxWaitMs`, which throws
the polling-timeout error.  A completed status returns; a failed status
throws; a rejected status call is NOT caught inside the loop, so it
propagates immediately; anything else waits for the next tick. -/
def pollWorkflowUntilComplete (responses : List PollResp) : Except String WorkflowStatus :=
  match responses with
  | [] => .error "Workflow polling timeout"
  | .throw msg :: _ => .error msg
  | .ok status :: rest =>
      if status.status = .completed then .ok status
      else if status.status = .failed then .error (status.errorMsg.getD "Workflow failed")
      else pollWorkflowUntilComplete rest

/-- Model of `pollAndUpdate(paymentNonce, pollFn)` (src/lib/workflow-store.ts):
await the polling result; on a completed status with a transaction hash,
record status `'completed'` together with the converted `SettleResponse`;
on any other resolved status record `'failed'` with the status object; a
rejected poll is caught and records `'failed'` with no status object. -/
def pollAndUpdate (s : WorkflowStore) (paymentNonce : String)
    (pollResult : Except String WorkflowStatus) : WorkflowStore :=
  match pollResult with
  | .ok workflowStatus =>
      match workflowStatus.transactionHash with
      | some tx =>
          if workflowStatus.status = .completed then
            let settleResult : SettleResponse :=
              { success := true, errorReason := none, transaction := tx,
                network := workflowStatus.resultNetwork.getD "base-sepolia",
                payer := workflowStatus.resultPayer }
            updateWorkflowStatus s paymentNonce .completed (some workflowStatus)
              (some settleResult)
          else updateWorkflowStatus s paymentNonce .failed (some workflowStatus) none
      | none => updateWorkflowStatus s paymentNonce .failed (some workflowStatus) none
  | .error _ => updateWorkflowStatus s paymentNonce .failed none none

/-- Model of `startBackgroundPolling(paymentNonce, workflowId, pollFn)`
(src/lib/workflow-store.ts): synchronously mark the entry `'running'`,
then (in the background) apply `pollAndUpdate`.  `pollAndUpdate` handles
every outcome of the poll itself, so the `.catch` attached by the source
never fires in this model. -/
def startBackgroundPolling (s : WorkflowStore) (paymentNonce : String)
    (pollResult : Except String WorkflowStatus) : WorkflowStore :=
  pollAndUpdate (updateWorkflowStatus s paymentNonce .running none none) paymentNonce
    pollResult

/-! ## The verify-path middleware (src/unnamed/part_001, krnlX402Middleware)

The operative revision of `krnlX402Middleware`: it is the only revision
consistent with the current `lib/workflow-builder.ts`, which exports
`buildX402VerifySettleWorkflow` but not the `buildSimpleX402Workflow`
imported by the stale `src/middleware/krnl-x402.ts` revision. -/

/-- Result of `krnlClient.executeWorkflow(workflowDSL)`. -/
structure ExecuteWorkflowResult where
  success : Bool
  workflowId : Option String
  error : Option String
deriving DecidableEq, Repr

/-- The external collaborators of one middleware invocation: the dispatch
result, the per-tick background-poll outcomes, and `Date.now()`. -/
structure MwEnv where
  executeResult : ExecuteWorkflowResult
  pollResponses : List PollResp
  now : Nat

/-- Observable events of one middleware invocation, paired (in traces) with
the store contents at the moment the event happens:
`track` = the `trackWorkflow` pre-tracking write, `dispatch` = the
`executeWorkflow` call to the external engine, `markRunning` = the
synchronous part of `startBackgroundPolling`, `backgroundUpdate` = the
background `pollAndUpdate` completion. -/
inductive MwEvent where
  | track (nonce : String)
  | dispatch (nonce : String)
  | markRunning (nonce : String)
  | backgroundUpdate (nonce : String)
deriving DecidableEq, Repr

/-- Result of one middleware invocation: the HTTP response, the final store,
and the event trace (each event with the store state at that point). -/
structure MwResult where
  response : VerifyResponse
  store : WorkflowStore
  trace : List (MwEvent × WorkflowStore)

/-- Model of `krnlX402Middleware(request, reply, config)` (src/unnamed/part_001) for
an EVM payload, starting from store `s`:
1. deduplication: an existing entry for the nonce returns `isValid:true`
   immediately, with no store change and no dispatch;
2. otherwise `trackWorkflow(paymentNonce, 'PENDING_EXECUTION')` BEFORE the
   `executeWorkflow` dispatch;
3. a failed dispatch marks the pre-tracked entry failed in place and
   returns `unexpected_verify_error`; a dispatch without a workflow id
   returns `unexpected_verify_error` leaving the entry pending;
4. on success the entry's `workflowId` is set to the returned intent id and
   `startBackgroundPolling` is started; the response is `isValid:true`. -/
def krnlX402Middleware (s : WorkflowStore) (env : MwEnv) (sender paymentNonce : String) :
    MwResult :=
  match storeGet s paymentNonce with
  | some _existingWorkflow =>
      { response := { isValid := true, invalidReason := none, payer := some sender },
        store := s, trace := [] }
  | none =>
      let s1 := trackWorkflow s paymentNonce "PENDING_EXECUTION" env.now
      let trace1 := [(MwEvent.track paymentNonce, s1), (MwEvent.dispatch paymentNonce, s1)]
      if env.executeResult.success = false then
        let s2 := match storeGet s1 paymentNonce with
          | some w =>
              storeSet s1 paymentNonce
                { w with status := .failed,
                         workflowStatus := some
                           { status := .failed, workflowId := "FAILED",
                             transactionHash := none,
                             errorMsg := env.executeResult.error,
                             resultNetwork := none, resultPayer := none } }
          | none => s1
        { response := { isValid := false,
                        invalidReason := some "unexpected_verify_error",
                        payer := some sender },
          store := s2, trace := trace1 }
      else
        match env.executeResult.workflowId with
        | none =>
            { response := { isValid := false,
                            invalidReason := some "unexpected_verify_error",
                            payer := some sender },
              store := s1, trace := trace1 }
        | some workflowId =>
            let s2 := match storeGet s1 paymentNonce with
              | some w => storeSet s1 paymentNonce { w with workflowId := workflowId }
              | none => s1
            let s3 := updateWorkflowStatus s2 paymentNonce .running none none
            let s4 := pollAndUpdate s3 paymentNonce
              (pollWorkflowUntilComplete env.pollResponses)
            { response := { isValid := true, invalidReason := none, payer := some sender },
              store := s4,
              trace := trace1 ++ [(MwEvent.markRunning paymentNonce, s3),
                                  (MwEvent.backgroundUpdate paymentNonce, s4)] }

/-- Number of external dispatch calls recorded in a trace. -/
def dispatchCount (trace : List (MwEvent × WorkflowStore)) (nonce : String) : Nat :=
  (trace.filter (fun e => e.1 = MwEvent.dispatch nonce)).length

/-- Sequential composition of verify calls for one nonce: final store and
total number of external dispatch calls. -/
def runVerifyCalls (s : WorkflowStore) (envs : List MwEnv) (sender paymentNonce : String) :
    WorkflowStore × Nat :=
  match envs with
  | [] => (s, 0)
  | env :: rest =>
      let r := krnlX402Middleware s env sender paymentNonce
      let out := runVerifyCalls r.store rest sender paymentNonce
      (out.1, dispatchCount r.trace paymentNonce + out.2)

/-! ## The settle endpoint (src/facilitator/settle/handlers.ts) -/

/-- The legacy `settlementCache : Map<string, SettleResponse>`. -/
abbrev SettlementCache := List (String × SettleResponse)

def cacheGet (c : SettlementCache) (k : String) : Option SettleResponse :=
  match c with
  | [] => none
  | p :: rest => if p.1 = k then some p.2 else cacheGet rest k

def cacheSet (c : SettlementCache) (k : String) (v : SettleResponse) : SettlementCache :=
  match c with
  | [] => [(k, v)]
  | p :: rest =>
      if p.1 = k then (k, v) :: rest
      else p :: cacheSet rest k v

/-- Model of `createSettlementKey(payload)`: the nonce of the EVM authorization. -/
def createSettlementKey (paymentPayload : PaymentPayload) : String :=
  paymentPayload.authorization.nonce

/-- External collaborators of one settle call: the per-tick outcomes of the
direct 30-second `pollWorkflowUntilComplete` wait, the `PRIVATE_KEY`
environment variable, and the outcome of the x402 SDK `settle` call. -/
structure SettleEnv where
  pollResponses : List PollResp
  privateKey : Option String
  x402SettleResult : Except Unit SettleResponse

/-- Result of one settle call: the HTTP response, the legacy cache after the
call (the workflow store is never written by the settle handler), and
which external actions were taken: `usedFallback` = the standalone
`fallbackSettle` path ran, `calledSettlePoll` = the handler polled the
external workflow engine directly, `calledX402Settle` = the x402 SDK
`settle` (an on-chain settlement dispatch) was invoked. -/
structure SettleOutcome where
  response : SettleResponse
  cache : SettlementCache
  usedFallback : Bool
  calledSettlePoll : Bool
  calledX402Settle : Bool
deriving DecidableEq, Repr

/-- Model of `fallbackSettle(request, reply)` (handlers.ts lines 137 to 193): the
standalone x402 settlement path used when no KRNL workflow answers the
request.  Checks the legacy cache, then requires `PRIVATE_KEY`, then
performs the x402 SDK `settle`, caching a successful result. -/
def fallbackSettle (cache : SettlementCache) (env : SettleEnv)
    (paymentPayload : PaymentPayload) (paymentRequirements : PaymentRequirements) :
    SettleOutcome :=
  let settlementKey := createSettlementKey paymentPayload
  match cacheGet cache settlementKey with
  | some cachedSettlement =>
      { response := cachedSettlement, cache := cache, usedFallback := true,
        calledSettlePoll := false, calledX402Settle := false }
  | none =>
    match env.privateKey with
    | none =>
        { response := { success := false, errorReason := some "unexpected_settle_error",
                        transaction := "", network := paymentRequirements.network,
                        payer := none },
          cache := cache, usedFallback := true,
          calledSettlePoll := false, calledX402Settle := false }
    | some _ =>
        match env.x402SettleResult with
        | .ok settleResult =>
            let cache' := if settleResult.success then
                cacheSet cache settlementKey settleResult
              else cache
            { response := settleResult, cache := cache', usedFallback := true,
              calledSettlePoll := false, calledX402Settle := true }
        | .error _ =>
            { response := { success := false, errorReason := some "unexpected_settle_error",
                            transaction := "", network := paymentRequirements.network,
                            payer := some paymentPayload.authorization.from_ },
              cache := cache, usedFallback := true,
              calledSettlePoll := false, calledX402Settle := true }

/-- Model of `postSettlePayment(request, reply)` (handlers.ts lines 46 to 132) for an
EVM payload:
1. no tracked workflow for the nonce: consult the legacy cache, else run
   `fallbackSettle`;
2. tracked workflow `'completed'` with a recorded `settleResult`: return
   that cached result;
3. tracked workflow `'failed'`: `fallbackSettle`;
4. tracked workflow `'pending'` or `'running'`: poll the external engine
   directly with the shorter settle budget; a completed status with a
   transaction hash becomes a success response, anything else (including a
   poll error or timeout) falls back;
5. a `'completed'` entry without a recorded result skips all branches and
   falls back. -/
def postSettlePayment (store : WorkflowStore) (cache : SettlementCache) (env : SettleEnv)
    (paymentPayload : PaymentPayload) (paymentRequirements : PaymentRequirements) :
    SettleOutcome :=
  let paymentNonce := paymentPayload.authorization.nonce
  match storeGet store paymentNonce with
  | none =>
      match cacheGet cache (createSettlementKey paymentPayload) with
      | some cachedSettlement =>
          { response := cachedSettlement, cache := cache, usedFallback := false,
            calledSettlePoll := false, calledX402Settle := false }
      | none => fallbackSettle cache env paymentPayload paymentRequirements
  | some workflow =>
      let waitBranch : SettleOutcome :=
        match pollWorkflowUntilComplete env.pollResponses with
        | .ok workflowStatus =>
            match workflowStatus.status, workflowStatus.transactionHash with
            | .completed, some tx =>
                { response := { success := true, errorReason := none, transaction := tx,
                                network := paymentRequirements.network,
                                payer := some paymentPayload.authorization.from_ },
                  cache := cache, usedFallback := false,
                  calledSettlePoll := true, calledX402Settle := false }
            | _, _ =>
                let fb := fallbackSettle cache env paymentPayload paymentRequirements
                { fb with calledSettlePoll := true }
        | .error _ =>
            let fb := fallbackSettle cache env paymentPayload paymentRequirements
            { fb with calledSettlePoll := true }
      match workflow.status, workflow.settleResult with
      | .completed, some settleResult =>
          { response := settleResult, cache := cache, usedFallback := false,
            calledSettlePoll := false, calledX402Settle := false }
      | .completed, none => fallbackSettle cache env paymentPayload paymentRequirements
      | .failed, _ => fallbackSettle cache env paymentPayload paymentRequirements
      | .pending, _ => waitBranch
      | .running, _ => waitBranch

/-! ## Helper lemmas about the store operations -/

theorem storeGet_updateWorkflowStatus_self (s : WorkflowStore) (n : String) (st : WStatus)
    (ws : Option WorkflowStatus) (sr : Option SettleResponse) (w : WorkflowTracking)
    (h : storeGet s n = some w) :
    storeGet (updateWorkflowStatus s n st ws sr) n =
      some { w with status := st, workflowStatus := ws, settleResult := sr } := by
  unfold updateWorkflowStatus
  rw [h]
  exact storeGet_storeSet_self s n _

theorem storeCount_updateWorkflowStatus (s : WorkflowStore) (n : String) (st : WStatus)
    (ws : Option WorkflowStatus) (sr : Option SettleResponse) :
    storeCount (updateWorkflowStatus s n st ws sr) n = storeCount s n := by
  unfold updateWorkflowStatus
  cases h : storeGet s n with
  | none => rfl
  | some w =>
      exact storeCount_storeSet_present s n _ (by rw [h]; exact fun hh => by cases hh)

theorem storeCount_pollAndUpdate (s : WorkflowStore) (n : String)
    (pr : Except String WorkflowStatus) :
    storeCount (pollAndUpdate s n pr) n = storeCount s n := by
  cases pr with
  | error e => simp [pollAndUpdate, storeCount_updateWorkflowStatus]
  | ok ws =>
      cases htx : ws.transactionHash with
      | none => simp [pollAndUpdate, htx, storeCount_updateWorkflowStatus]
      | some tx =>
          by_cases h : ws.status = WStatus.completed <;>
            simp [pollAndUpdate, htx, h, storeCount_updateWorkflowStatus]

/-- C10: `updateWorkflowStatus` on an absent nonce leaves the store
completely unchanged and never creates an entry; on a present nonce it
changes no binding other than that nonce's; and `trackWorkflow` is the
operation that creates an entry (in state `'pending'`). -/
theorem C10_updateWorkflowStatus_frame (s : WorkflowStore) (n wid : String) (now : Nat)
    (st : WStatus) (ws : Option WorkflowStatus) (sr : Option SettleResponse) :
    (storeGet s n = none → updateWorkflowStatus s n st ws sr = s) ∧
    (∀ k, k ≠ n → storeGet (updateWorkflowStatus s n st ws sr) k = storeGet s k) ∧
    (∀ k, storeGet s k = none → storeGet (updateWorkflowStatus s n st ws sr) k = none) ∧
    storeGet (trackWorkflow s n wid now) n =
      some { workflowId := wid, paymentNonce := n, startedAt := now,
             status := .pending, workflowStatus := none, settleResult := none } := by
  refine ⟨?_, ?_, ?_, ?_⟩
  · intro h
    unfold updateWorkflowStatus
    rw [h]
  · intro k hk
    unfold updateWorkflowStatus
    cases hget : storeGet s n with
    | none => rfl
    | some w => exact storeGet_storeSet_other s n k _ hk
  · intro k hk
    unfold updateWorkflowStatus
    cases hget : storeGet s n with
    | none => exact hk
    | some w =>
        have hkn : k ≠ n := by
          intro h
          rw [h] at hk
          rw [hk] at hget
          cases hget
        rw [storeGet_storeSet_other s n k _ hkn]
        exact hk
  · exact storeGet_storeSet_self s n _

/-- A sample pending entry for key `"a"`, used in concrete evaluations. -/
def samplePendingEntry : WorkflowTracking :=
  { workflowId := "w", paymentNonce := "a", startedAt := 0,
    status := .pending, workflowStatus := none, settleResult := none }

/-- C10 witness: the frame conditions evaluated on a small concrete store. -/
theorem C10_updateWorkflowStatus_frame_witness :
    updateWorkflowStatus [("a", samplePendingEntry)] "b" WStatus.completed none none =
      [("a", samplePendingEntry)] ∧
    storeGet (updateWorkflowStatus [("a", samplePendingEntry)] "a"
      WStatus.completed none none) "c" = none := by
  constructor
  · exact (C10_updateWorkflowStatus_frame _ "b" "w" 0 .completed none none).1 rfl
  · exact (C10_updateWorkflowStatus_frame _ "a" "w" 0 .completed none none).2.2.1 "c" rfl

/-- C8: once a tracked entry is `'completed'` with a recorded settlement
result, every settle call for that nonce returns exactly that cached
result: same response object (hence the same transaction reference), the
legacy cache untouched, no fallback, no direct poll of the external
engine, and no x402 settle dispatch. -/
theorem C8_settle_idempotent_after_completed (store : WorkflowStore)
    (cache : SettlementCache) (env : SettleEnv) (paymentPayload : PaymentPayload)
    (paymentRequirements : PaymentRequirements) (w : WorkflowTracking) (r : SettleResponse)
    (hget : storeGet store paymentPayload.authorization.nonce = some w)
    (hstatus : w.status = .completed) (hres : w.settleResult = some r) :
    postSettlePayment store cache env paymentPayload paymentRequirements =
      { response := r, cache := cache, usedFallback := false,
        calledSettlePoll := false, calledX402Settle := false } := by
  simp only [postSettlePayment, hget, hstatus, hres]

/-- A sample successful settlement response. -/
def sampleSettleResponse : SettleResponse :=
  { success := true, errorReason := none, transaction := "0xTX",
    network := "base-sepolia", payer := some "0xaaaa" }

/-- A sample completed entry for nonce `"0xn"` carrying `sampleSettleResponse`. -/
def sampleCompletedEntry : WorkflowTracking :=
  { workflowId := "wf1", paymentNonce := "0xn", startedAt := 0,
    status := .completed, workflowStatus := none,
    settleResult := some sampleSettleResponse }

/-- A settle environment where every external collaborator is unavailable. -/
def sampleSettleEnv : SettleEnv :=
  { pollResponses := [], privateKey := none, x402SettleResult := .error () }

/-- A sample exact-scheme payment payload with nonce `"0xn"`. -/
def samplePayload : PaymentPayload :=
  { scheme := "exact",
    authorization := { from_ := "0xaaaa", to_ := "0xbbbb", value := 10000,
                       validAfter := 900, validBefore := 5000, nonce := "0xn" },
    signature := "sig" }

/-- Sample payment requirements matching `samplePayload`. -/
def sampleRequirements : PaymentRequirements :=
  { scheme := "exact", network := "base-sepolia", asset := "0xasset",
    payTo := "0xbbbb", maxAmountRequired := 10000 }

/-- C8 witness: a concrete completed entry is served from the store. -/
theorem C8_settle_idempotent_after_completed_witness :
    postSettlePayment [("0xn", sampleCompletedEntry)] [] sampleSettleEnv
      samplePayload sampleRequirements =
      { response := { success := true, errorReason := none, transaction := "0xTX",
                      network := "base-sepolia", payer := some "0xaaaa" },
        cache := [], usedFallback := false,
        calledSettlePoll := false, calledX402Settle := false } :=
  C8_settle_idempotent_after_completed _ _ _ _ _ _ _ rfl rfl rfl

/-- C3 counterexample: a settle request whose nonce was never seen by verify
(empty store, empty cache) runs the standalone `fallbackSettle` path and
reports `unexpected_settle_error` (here: no private key configured) — not
a `no_workflow_tracked` failure, which the handler never produces. -/
theorem C3_counterexample :
    (postSettlePayment [] [] sampleSettleEnv samplePayload sampleRequirements).usedFallback
        = true ∧
    (postSettlePayment [] [] sampleSettleEnv samplePayload sampleRequirements).response
        = { success := false, errorReason := some "unexpected_settle_error",
            transaction := "", network := "base-sepolia", payer := none } ∧
    ¬ (postSettlePayment [] [] sampleSettleEnv samplePayload
        sampleRequirements).response.errorReason = some "no_workflow_tracked" := by
  refine ⟨rfl, rfl, ?_⟩
  intro h
  simp [postSettlePayment, fallbackSettle, sampleSettleEnv, samplePayload,
    sampleRequirements, storeGet, cacheGet, createSettlementKey] at h

/-- C3 (amended): a settle request whose nonce has no tracked workflow entry
falls back to the standalone x402 settle path after consulting the legacy
settlement cache (`usedFallback` is set on every branch of that path), and
when no signing key is configured the failure reason is
`unexpected_settle_error`; the handler has no `no_workflow_tracked` reason. -/
theorem C3_no_tracked_falls_back (store : WorkflowStore) (cache : SettlementCache)
    (env : SettleEnv) (paymentPayload : PaymentPayload)
    (paymentRequirements : PaymentRequirements)
    (hget : storeGet store paymentPayload.authorization.nonce = none)
    (hcache : cacheGet cache (createSettlementKey paymentPayload) = none) :
    postSettlePayment store cache env paymentPayload paymentRequirements =
      fallbackSettle cache env paymentPayload paymentRequirements ∧
    (fallbackSettle cache env paymentPayload paymentRequirements).usedFallback = true ∧
    (env.privateKey = none →
      (postSettlePayment store cache env paymentPayload paymentRequirements).response =
        { success := false, errorReason := some "unexpected_settle_error",
          transaction := "", network := paymentRequirements.network, payer := none }) := by
  refine ⟨?_, ?_, ?_⟩
  · simp only [postSettlePayment, hget, hcache]
  · simp only [fallbackSettle, hcache]
    cases hpk : env.privateKey with
    | none => rfl
    | some k =>
        cases hx : env.x402SettleResult with
        | ok r => by_cases hsucc : r.success <;> simp [hsucc]
        | error e => rfl
  · intro hpk
    simp only [postSettlePayment, hget, hcache, fallbackSettle, hpk]

/-- C3 witness: the amended behavior evaluated at a concrete request. -/
theorem C3_no_tracked_falls_back_witness :
    postSettlePayment [] [] sampleSettleEnv samplePayload sampleRequirements =
      fallbackSettle [] sampleSettleEnv samplePayload sampleRequirements ∧
    (postSettlePayment [] [] sampleSettleEnv samplePayload sampleRequirements).response =
      { success := false, errorReason := some "unexpected_settle_error",
        transaction := "", network := "base-sepolia", payer := none } :=
  ⟨(C3_no_tracked_falls_back [] [] sampleSettleEnv samplePayload sampleRequirements
      rfl rfl).1,
   (C3_no_tracked_falls_back [] [] sampleSettleEnv samplePayload sampleRequirements
      rfl rfl).2.2 rfl⟩

/-! ## Middleware path lemmas -/

/-- The entry written by the pre-tracking step of the middleware. -/
def pendingEntry (nonce : String) (now : Nat) : WorkflowTracking :=
  { workflowId := "PENDING_EXECUTION", paymentNonce := nonce, startedAt := now,
    status := .pending, workflowStatus := none, settleResult := none }

/-- Repeat verify call: an existing entry for the nonce short-circuits the
middleware with `isValid:true`, an unchanged store and an empty trace. -/
theorem krnlX402Middleware_dedup (s : WorkflowStore) (env : MwEnv)
    (sender nonce : String) (w : WorkflowTracking) (h : storeGet s nonce = some w) :
    krnlX402Middleware s env sender nonce =
      { response := { isValid := true, invalidReason := none, payer := some sender },
        store := s, trace := [] } := by
  simp only [krnlX402Middleware, h]

/-- The modelled `pollAndUpdate` always leaves a present entry in a terminal state. -/
theorem pollAndUpdate_terminal (s : WorkflowStore) (n : String)
    (pr : Except String WorkflowStatus) (w : WorkflowTracking)
    (h : storeGet s n = some w) :
    ∃ t, (t = WStatus.completed ∨ t = WStatus.failed) ∧
      (storeGet (pollAndUpdate s n pr) n).map WorkflowTracking.status = some t := by
  cases pr with
  | error e =>
      exact ⟨.failed, Or.inr rfl, by
        simp [pollAndUpdate, storeGet_updateWorkflowStatus_self s n _ _ _ w h]⟩
  | ok ws =>
      cases htx : ws.transactionHash with
      | none =>
          exact ⟨.failed, Or.inr rfl, by
            simp [pollAndUpdate, htx, storeGet_updateWorkflowStatus_self s n _ _ _ w h]⟩
      | some tx =>
          by_cases hst : ws.status = WStatus.completed
          · exact ⟨.completed, Or.inl rfl, by
              simp [pollAndUpdate, htx, hst,
                storeGet_updateWorkflowStatus_self s n _ _ _ w h]⟩
          · exact ⟨.failed, Or.inr rfl, by
              simp [pollAndUpdate, htx, hst,
                storeGet_updateWorkflowStatus_self s n _ _ _ w h]⟩

/-- Full description of the middleware on the successful dispatch path from
a fresh nonce: the pre-tracking write, the dispatch, the workflow-id
update, the running mark and the background terminal update, in order. -/
theorem krnlX402Middleware_success (s : WorkflowStore) (env : MwEnv)
    (sender nonce wid : String)
    (hfresh : storeGet s nonce = none) (hsucc : env.executeResult.success = true)
    (hwid : env.executeResult.workflowId = some wid) :
    krnlX402Middleware s env sender nonce =
      { response := { isValid := true, invalidReason := none, payer := some sender },
        store := pollAndUpdate
          (updateWorkflowStatus
            (storeSet (trackWorkflow s nonce "PENDING_EXECUTION" env.now) nonce
              { pendingEntry nonce env.now with workflowId := wid })
            nonce .running none none)
          nonce (pollWorkflowUntilComplete env.pollResponses),
        trace :=
          [ (MwEvent.track nonce, trackWorkflow s nonce "PENDING_EXECUTION" env.now),
            (MwEvent.dispatch nonce, trackWorkflow s nonce "PENDING_EXECUTION" env.now),
            (MwEvent.markRunning nonce,
              updateWorkflowStatus
                (storeSet (trackWorkflow s nonce "PENDING_EXECUTION" env.now) nonce
                  { pendingEntry nonce env.now with workflowId := wid })
                nonce .running none none),
            (MwEvent.backgroundUpdate nonce,
              pollAndUpdate
                (updateWorkflowStatus
                  (storeSet (trackWorkflow s nonce "PENDING_EXECUTION" env.now) nonce
                    { pendingEntry nonce env.now with workflowId := wid })
                  nonce .running none none)
                nonce (pollWorkflowUntilComplete env.pollResponses)) ] } := by
  have h1 : storeGet (trackWorkflow s nonce "PENDING_EXECUTION" env.now) nonce
      = some (pendingEntry nonce env.now) := storeGet_storeSet_self s nonce _
  simp only [krnlX402Middleware, hfresh, hsucc, hwid, h1, Bool.true_eq_false,
    if_false, pendingEntry, List.cons_append, List.nil_append]

/-- The legal transitions of the spec state machine
PENDING_EXECUTION → RUNNING → { COMPLETED, FAILED }. -/
def specStepOk : WStatus → WStatus → Bool
  | .pending, .running => true
  | .running, .completed => true
  | .running, .failed => true
  | _, _ => false

/-- The status of the nonce's entry at each event of a middleware trace. -/
def entryStatusTrace (r : MwResult) (nonce : String) : List WStatus :=
  r.trace.filterMap (fun e => (storeGet e.2 nonce).map WorkflowTracking.status)

/-- C4 counterexample: the store itself does not make terminal states final.
`updateWorkflowStatus` overwrites whatever status an entry has, so a
direct call moves a `'completed'` entry back to `'failed'`. -/
theorem C4_counterexample :
    (storeGet (updateWorkflowStatus (trackWorkflow [] "n" "w" 0) "n"
        WStatus.completed none none) "n").map WorkflowTracking.status =
      some WStatus.completed ∧
    (storeGet (updateWorkflowStatus (updateWorkflowStatus (trackWorkflow [] "n" "w" 0) "n"
        WStatus.completed none none) "n" WStatus.failed none none) "n").map
        WorkflowTracking.status = some WStatus.failed := by
  exact ⟨rfl, rfl⟩

/-- C4 (amended): the state machine is enforced by the call pattern of the
verify path, not by the store.  Along the operations the middleware
actually performs on a fresh nonce (pre-track, workflow-id update, running
mark, one background terminal update), the entry's status moves exactly
PENDING → PENDING → RUNNING → terminal, every consecutive move is a legal
spec transition (or a stutter), the last operation of the pattern leaves a
terminal status, and no operation of the pattern follows it. -/
theorem C4_verify_path_state_machine (s : WorkflowStore) (env : MwEnv)
    (sender nonce wid : String)
    (hfresh : storeGet s nonce = none) (hsucc : env.executeResult.success = true)
    (hwid : env.executeResult.workflowId = some wid) :
    ∃ t, (t = WStatus.completed ∨ t = WStatus.failed) ∧
      entryStatusTrace (krnlX402Middleware s env sender nonce) nonce =
        [WStatus.pending, WStatus.pending, WStatus.running, t] ∧
      (storeGet (krnlX402Middleware s env sender nonce).store nonce).map
        WorkflowTracking.status = some t ∧
      List.Chain' (fun a b => a = b ∨ specStepOk a b = true)
        (entryStatusTrace (krnlX402Middleware s env sender nonce) nonce) := by
  have hmw := krnlX402Middleware_success s env sender nonce wid hfresh hsucc hwid
  have h1 : storeGet (trackWorkflow s nonce "PENDING_EXECUTION" env.now) nonce
      = some (pendingEntry nonce env.now) := storeGet_storeSet_self s nonce _
  have h2 : storeGet (storeSet (trackWorkflow s nonce "PENDING_EXECUTION" env.now) nonce
        { pendingEntry nonce env.now with workflowId := wid }) nonce
      = some { pendingEntry nonce env.now with workflowId := wid } :=
    storeGet_storeSet_self _ nonce _
  have h3 := storeGet_updateWorkflowStatus_self _ nonce WStatus.running none none _ h2
  obtain ⟨t, ht, h4⟩ := pollAndUpdate_terminal _ nonce
    (pollWorkflowUntilComplete env.pollResponses) _ h3
  simp only [pendingEntry] at h1 h3 h4
  have hlist : entryStatusTrace (krnlX402Middleware s env sender nonce) nonce =
      [WStatus.pending, WStatus.pending, WStatus.running, t] := by
    rw [hmw]
    simp [entryStatusTrace, h1, h3, h4, pendingEntry]
  refine ⟨t, ht, hlist, ?_, ?_⟩
  · rw [hmw]
    simp only [pendingEntry]
    exact h4
  · rw [hlist]
    rcases ht with h | h <;> subst h <;>
      simp [List.chain'_cons, List.chain'_singleton, specStepOk]

/-- A status object for a successfully completed workflow. -/
def sampleCompletedStatus : WorkflowStatus :=
  { status := .completed, workflowId := "wf1", transactionHash := some "0xTX",
    errorMsg := none, resultNetwork := some "base-sepolia",
    resultPayer := some "0xaaaa" }

/-- A middleware environment whose dispatch succeeds and whose background
poll observes a completed workflow. -/
def sampleMwEnvOk : MwEnv :=
  { executeResult := { success := true, workflowId := some "wf1", error := none },
    pollResponses := [PollResp.ok sampleCompletedStatus], now := 0 }

/-- C4 witness: the amended lifecycle evaluated on a concrete run. -/
theorem C4_verify_path_state_machine_witness :
    ∃ t, (t = WStatus.completed ∨ t = WStatus.failed) ∧
      entryStatusTrace (krnlX402Middleware [] sampleMwEnvOk "0xaaaa" "0xn") "0xn" =
        [WStatus.pending, WStatus.pending, WStatus.running, t] ∧
      (storeGet (krnlX402Middleware [] sampleMwEnvOk "0xaaaa" "0xn").store "0xn").map
        WorkflowTracking.status = some t ∧
      List.Chain' (fun a b => a = b ∨ specStepOk a b = true)
        (entryStatusTrace (krnlX402Middleware [] sampleMwEnvOk "0xaaaa" "0xn") "0xn") :=
  C4_verify_path_state_machine [] sampleMwEnvOk "0xaaaa" "0xn" "wf1" rfl rfl rfl

/-- Once the nonce is tracked, any further verify calls change nothing:
no store writes and no dispatches, whatever their environments. -/
theorem runVerifyCalls_present (envs : List MwEnv) (s : WorkflowStore)
    (sender nonce : String) (w : WorkflowTracking) (h : storeGet s nonce = some w) :
    runVerifyCalls s envs sender nonce = (s, 0) := by
  induction envs with
  | nil => rfl
  | cons env rest ih =>
      simp only [runVerifyCalls, krnlX402Middleware_dedup s env sender nonce w h, ih]
      simp [dispatchCount]

/-- One verify call on a fresh nonce: afterwards the nonce is present, holds
exactly one more binding than before, and exactly one dispatch happened. -/
theorem krnlX402Middleware_fresh_effects (s : WorkflowStore) (env : MwEnv)
    (sender nonce : String) (hfresh : storeGet s nonce = none) :
    (∃ w, storeGet (krnlX402Middleware s env sender nonce).store nonce = some w) ∧
    storeCount (krnlX402Middleware s env sender nonce).store nonce
      = storeCount s nonce + 1 ∧
    dispatchCount (krnlX402Middleware s env sender nonce).trace nonce = 1 := by
  have h1 : storeGet (trackWorkflow s nonce "PENDING_EXECUTION" env.now) nonce
      = some (pendingEntry nonce env.now) := storeGet_storeSet_self s nonce _
  have hc1 : storeCount (trackWorkflow s nonce "PENDING_EXECUTION" env.now) nonce
      = storeCount s nonce + 1 := storeCount_storeSet_absent s nonce _ hfresh
  by_cases hsucc : env.executeResult.success = true
  · cases hwid : env.executeResult.workflowId with
    | none =>
        simp only [krnlX402Middleware, hfresh, hsucc, hwid, Bool.true_eq_false, if_false]
        refine ⟨⟨_, h1⟩, hc1, ?_⟩
        simp [dispatchCount]
    | some wid =>
        have hmw := krnlX402Middleware_success s env sender nonce wid hfresh hsucc hwid
        have h2 := storeGet_storeSet_self (trackWorkflow s nonce "PENDING_EXECUTION" env.now)
          nonce { pendingEntry nonce env.now with workflowId := wid }
        have h3 := storeGet_updateWorkflowStatus_self _ nonce WStatus.running none none _ h2
        obtain ⟨t, ht, h4⟩ := pollAndUpdate_terminal _ nonce
          (pollWorkflowUntilComplete env.pollResponses) _ h3
        obtain ⟨w4, hw4, -⟩ := Option.map_eq_some'.mp h4
        simp only [hmw]
        refine ⟨⟨w4, hw4⟩, ?_, ?_⟩
        · rw [storeCount_pollAndUpdate, storeCount_updateWorkflowStatus,
            storeCount_storeSet_present _ _ _ (by rw [h1]; exact fun hh => by cases hh)]
          exact hc1
        · simp [dispatchCount]
  · have hf : env.executeResult.success = false := by
      simpa using hsucc
    simp only [krnlX402Middleware, hfresh, hf, reduceIte, h1]
    refine ⟨⟨_, storeGet_storeSet_self _ nonce _⟩, ?_, ?_⟩
    · rw [storeCount_storeSet_present _ _ _ (by rw [h1]; exact fun hh => by cases hh)]
      exact hc1
    · simp [dispatchCount]

/-- C2: the nonce is the sole dedup key.  A verify call whose nonce is
already tracked returns `isValid:true` with the store untouched (the
existing entry and every other binding unchanged) and performs no
dispatch; starting from a store without the nonce, any sequence of N ≥ 1
verify calls with that nonce performs exactly one external dispatch and
leaves exactly one tracked binding for the nonce. -/
theorem C2_nonce_dedup (sender nonce : String) :
    (∀ (s : WorkflowStore) (env : MwEnv) (w : WorkflowTracking),
        storeGet s nonce = some w →
        krnlX402Middleware s env sender nonce =
          { response := { isValid := true, invalidReason := none, payer := some sender },
            store := s, trace := [] }) ∧
    (∀ (s : WorkflowStore) (env0 : MwEnv) (envs : List MwEnv),
        storeCount s nonce = 0 →
        (runVerifyCalls s (env0 :: envs) sender nonce).2 = 1 ∧
        storeCount (runVerifyCalls s (env0 :: envs) sender nonce).1 nonce = 1) := by
  refine ⟨fun s env w h => krnlX402Middleware_dedup s env sender nonce w h, ?_⟩
  intro s env0 envs hcount
  have hfresh : storeGet s nonce = none := storeGet_none_of_count_zero s nonce hcount
  obtain ⟨⟨w1, hw1⟩, hc, hd⟩ := krnlX402Middleware_fresh_effects s env0 sender nonce hfresh
  have hrest := runVerifyCalls_present envs (krnlX402Middleware s env0 sender nonce).store
    sender nonce w1 hw1
  constructor
  · simp only [runVerifyCalls, hrest]
    simpa using hd
  · simp only [runVerifyCalls, hrest]
    rw [hc, hcount]

/-- C2 witness: three verify calls with the same nonce from an empty store
make exactly one dispatch and one entry; a call on a tracked nonce is a
no-op. -/
theorem C2_nonce_dedup_witness :
    (krnlX402Middleware [("0xn", sampleCompletedEntry)] sampleMwEnvOk "0xaaaa" "0xn" =
      { response := { isValid := true, invalidReason := none, payer := some "0xaaaa" },
        store := [("0xn", sampleCompletedEntry)], trace := [] }) ∧
    (runVerifyCalls [] [sampleMwEnvOk, sampleMwEnvOk, sampleMwEnvOk] "0xaaaa" "0xn").2
      = 1 ∧
    storeCount
      (runVerifyCalls [] [sampleMwEnvOk, sampleMwEnvOk, sampleMwEnvOk] "0xaaaa" "0xn").1
      "0xn" = 1 :=
  ⟨(C2_nonce_dedup "0xaaaa" "0xn").1 _ sampleMwEnvOk sampleCompletedEntry rfl,
   ((C2_nonce_dedup "0xaaaa" "0xn").2 [] sampleMwEnvOk [sampleMwEnvOk, sampleMwEnvOk]
      rfl).1,
   ((C2_nonce_dedup "0xaaaa" "0xn").2 [] sampleMwEnvOk [sampleMwEnvOk, sampleMwEnvOk]
      rfl).2⟩

/-- C5: on the verify path from a fresh nonce, the first observable event is
the pre-tracking write, and at every external dispatch event the store
already holds the nonce's entry in state `'pending'` (with the
`PENDING_EXECUTION` placeholder id) — so a dispatched job never exists
without a local tracking entry. -/
theorem C5_track_before_dispatch (s : WorkflowStore) (env : MwEnv)
    (sender nonce : String) (hfresh : storeGet s nonce = none) :
    (∃ st rest, (krnlX402Middleware s env sender nonce).trace =
        (MwEvent.track nonce, st) :: rest) ∧
    (∀ st, (MwEvent.dispatch nonce, st) ∈ (krnlX402Middleware s env sender nonce).trace →
        storeGet st nonce = some (pendingEntry nonce env.now)) := by
  have h1 : storeGet (trackWorkflow s nonce "PENDING_EXECUTION" env.now) nonce
      = some (pendingEntry nonce env.now) := storeGet_storeSet_self s nonce _
  by_cases hsucc : env.executeResult.success = true
  · cases hwid : env.executeResult.workflowId with
    | none =>
        simp only [krnlX402Middleware, hfresh, hsucc, hwid, Bool.true_eq_false, if_false]
        refine ⟨⟨_, _, rfl⟩, ?_⟩
        intro st hmem
        simp only [List.mem_cons, List.not_mem_nil, or_false, Prod.mk.injEq,
          reduceCtorEq, false_and, false_or] at hmem
        obtain ⟨-, rfl⟩ := hmem
        exact h1
    | some wid =>
        rw [krnlX402Middleware_success s env sender nonce wid hfresh hsucc hwid]
        refine ⟨⟨_, _, rfl⟩, ?_⟩
        intro st hmem
        simp only [List.mem_cons, List.not_mem_nil, or_false, Prod.mk.injEq,
          reduceCtorEq, false_and, false_or] at hmem
        obtain ⟨-, rfl⟩ := hmem
        exact h1
  · have hf : env.executeResult.success = false := by
      simpa using hsucc
    simp only [krnlX402Middleware, hfresh, hf, reduceIte, h1]
    refine ⟨⟨_, _, rfl⟩, ?_⟩
    intro st hmem
    simp only [List.mem_cons, List.not_mem_nil, or_false, Prod.mk.injEq,
      reduceCtorEq, false_and, false_or] at hmem
    obtain ⟨-, rfl⟩ := hmem
    exact h1

/-- C5 witness: the tracking entry exists (pending) at the dispatch event of
a concrete run. -/
theorem C5_track_before_dispatch_witness :
    (∃ st rest, (krnlX402Middleware [] sampleMwEnvOk "0xaaaa" "0xn").trace =
        (MwEvent.track "0xn", st) :: rest) ∧
    storeGet (trackWorkflow [] "0xn" "PENDING_EXECUTION" 0) "0xn"
      = some (pendingEntry "0xn" 0) :=
  ⟨(C5_track_before_dispatch [] sampleMwEnvOk "0xaaaa" "0xn" rfl).1,
   (C5_track_before_dispatch [] sampleMwEnvOk "0xaaaa" "0xn" rfl).2
     (trackWorkflow [] "0xn" "PENDING_EXECUTION" 0) (by decide)⟩

/-- A tracked entry in the running state for nonce `"0xn"`. -/
def sampleRunningEntry : WorkflowTracking :=
  { workflowId := "wf1", paymentNonce := "0xn", startedAt := 0,
    status := .running, workflowStatus := none, settleResult := none }

/-- C6 counterexample: one rejected status call ends the polling run at once
and the tracked entry is marked failed, even though the very next tick
would have reported the workflow completed (so neither a terminal failure
signal nor the polling ceiling was reached). -/
theorem C6_counterexample :
    pollWorkflowUntilComplete
      [PollResp.throw "ECONNRESET", PollResp.ok sampleCompletedStatus] =
      Except.error "ECONNRESET" ∧
    pollWorkflowUntilComplete [PollResp.ok sampleCompletedStatus] =
      Except.ok sampleCompletedStatus ∧
    (storeGet (pollAndUpdate [("0xn", sampleRunningEntry)] "0xn"
        (pollWorkflowUntilComplete
          [PollResp.throw "ECONNRESET", PollResp.ok sampleCompletedStatus])) "0xn").map
      WorkflowTracking.status = some WStatus.failed := by
  refine ⟨rfl, ?_, rfl⟩
  simp [pollWorkflowUntilComplete, sampleCompletedStatus]

/-- C6 (amended): a single error from one status call is terminal for the
polling run.  `getWorkflowStatus` rethrows it, the loop in
`pollWorkflowUntilComplete` does not catch it (remaining ticks are never
consulted), and `pollAndUpdate` catches the rejection by marking the
tracked entry `'failed'`. -/
theorem C6_single_error_terminates (responses rest : List PollResp) (msg : String)
    (s : WorkflowStore) (n : String) (w : WorkflowTracking)
    (hresp : responses = PollResp.throw msg :: rest)
    (hget : storeGet s n = some w) :
    pollWorkflowUntilComplete responses = Except.error msg ∧
    (storeGet (pollAndUpdate s n (pollWorkflowUntilComplete responses)) n).map
      WorkflowTracking.status = some WStatus.failed := by
  subst hresp
  refine ⟨rfl, ?_⟩
  simp [pollAndUpdate, pollWorkflowUntilComplete,
    storeGet_updateWorkflowStatus_self s n _ _ _ w hget]

/-- C6 witness: the terminal effect of a single transient error, evaluated
on a concrete store. -/
theorem C6_single_error_terminates_witness :
    pollWorkflowUntilComplete
      [PollResp.throw "boom", PollResp.ok sampleCompletedStatus] =
      Except.error "boom" ∧
    (storeGet (pollAndUpdate [("0xn", sampleRunningEntry)] "0xn"
        (pollWorkflowUntilComplete
          [PollResp.throw "boom", PollResp.ok sampleCompletedStatus])) "0xn").map
      WorkflowTracking.status = some WStatus.failed :=
  C6_single_error_terminates _ [PollResp.ok sampleCompletedStatus] "boom"
    [("0xn", sampleRunningEntry)] "0xn" sampleRunningEntry rfl rfl

/-- C9: the balance check is best-effort.  When the `balanceOf` read rejects,
the verification result is never `insufficient_funds` (first conjunct) and
execution continues to the remaining value check: all other checks passing
yields `isValid:true` (second conjunct), and a too-low value still yields
the value reason (third conjunct) — the balance failure alone never makes
the result invalid or an unexpected error. -/
theorem C9_balance_best_effort (cfg : NetworkConfig) (env : ChainEnv)
    (pp : PaymentPayload) (pr : PaymentRequirements)
    (hbal : env.balanceOf pr.asset pp.authorization.from_ = .error ()) :
    (verifyPaymentForKRNL env pp pr).invalidReason ≠ some "insufficient_funds" ∧
    (pp.scheme = "exact" → pr.scheme = "exact" →
     networkLookup pr.network = some cfg →
     signatureValid env pp.authorization pp.signature pr.asset = .ok true →
     getAddress pp.authorization.to_ = getAddress pr.payTo →
     env.now + 6 ≤ pp.authorization.validBefore →
     pp.authorization.validAfter ≤ env.now →
     pr.maxAmountRequired ≤ pp.authorization.value →
     verifyPaymentForKRNL env pp pr =
       { isValid := true, invalidReason := none,
         payer := some pp.authorization.from_ }) ∧
    (pp.scheme = "exact" → pr.scheme = "exact" →
     networkLookup pr.network = some cfg →
     signatureValid env pp.authorization pp.signature pr.asset = .ok true →
     getAddress pp.authorization.to_ = getAddress pr.payTo →
     env.now + 6 ≤ pp.authorization.validBefore →
     pp.authorization.validAfter ≤ env.now →
     pp.authorization.value < pr.maxAmountRequired →
     verifyPaymentForKRNL env pp pr =
       { isValid := false,
         invalidReason := some "invalid_exact_evm_payload_authorization_value",
         payer := some pp.authorization.from_ }) := by
  refine ⟨?_, ?_, ?_⟩
  · simp only [verifyPaymentForKRNL, hbal]
    repeat' split
    all_goals simp
  · intro hps hrs hcfg hsig hto hvb hva hval
    have hvb' : ¬ (pp.authorization.validBefore < env.now + 6) := by omega
    have hva' : ¬ (env.now < pp.authorization.validAfter) := by omega
    have hval' : ¬ (pp.authorization.value < pr.maxAmountRequired) := by omega
    simp [verifyPaymentForKRNL, hps, hrs, hcfg, hsig, hto, hbal, hvb', hva', hval']
  · intro hps hrs hcfg hsig hto hvb hva hval
    have hvb' : ¬ (pp.authorization.validBefore < env.now + 6) := by omega
    have hva' : ¬ (env.now < pp.authorization.validAfter) := by omega
    simp [verifyPaymentForKRNL, hps, hrs, hcfg, hsig, hto, hbal, hvb', hva', hval]

/-- A chain environment whose ECDSA recovery distinguishes the bare EIP-712
signing hash from its EIP-191 personal-message digest: on a digest
carrying the personal-message header it recovers `0xbbbb`, on anything
else (in particular the bare signing hash) it recovers `0xaaaa`. -/
def probeEnv : ChainEnv :=
  { keccak256 := fun s => "K<" ++ s ++ ">"
    domainSeparatorOf := fun _ => .ok "DS"
    getBytecode := fun _ => .ok none
    isValidSignature1271 := fun _ _ _ => .error ()
    recoverAddress := fun digest _ =>
      .ok (match digest.data with
        | 'K' :: '<' :: '1' :: '9' :: '0' :: _ => "0xaaaa"
        | _ => "0xbbbb")
    balanceOf := fun _ _ => .ok 1000000
    now := 1000 }

/-- An authorization from the simple account `0xaaaa`. -/
def probeAuth : Authorization :=
  { from_ := "0xaaaa", to_ := "0xbbbb", value := 10000,
    validAfter := 900, validBefore := 5000, nonce := "0xnonce" }

/-- The concrete bare signing hash of `probeAuth` in the probe environment. -/
def probeRawHash : String :=
  match eip712HashOf probeEnv probeAuth "0xasset" with
  | .ok h => h
  | .error _ => ""

/-- C7 counterexample: a simple account (empty bytecode) whose signature
recovers to `from` over the bare EIP-712 signing hash, yet the code's
check fails — because `client.verifyMessage` first applies the EIP-191
personal-message transformation to the hash, contradicting the claim that
no other transformation is applied before recovery. -/
theorem C7_counterexample :
    eip712HashOf probeEnv probeAuth "0xasset" = .ok probeRawHash ∧
    probeEnv.recoverAddress probeRawHash "sig" = .ok probeAuth.from_ ∧
    probeEnv.getBytecode probeAuth.from_ = .ok none ∧
    signatureValid probeEnv probeAuth "sig" "0xasset" = .ok false := by
  refine ⟨rfl, rfl, rfl, rfl⟩

/-- C7 (amended): for a signer with empty on-chain bytecode, the signature
check succeeds exactly when the address recovered from the signature over
the EIP-191 personal-message digest of the final EIP-712 signing hash
(`keccak256(0x19 ‖ 'Ethereum Signed Message:\n32' ‖ signingHash)`, the
digest viem `verifyMessage` uses) equals the authorization `from`,
compared case-insensitively; a recovery error counts as failure. -/
theorem C7_eoa_eip191_recovery (env : ChainEnv) (auth : Authorization)
    (signature asset h : String)
    (hhash : eip712HashOf env auth asset = .ok h)
    (hcode : env.getBytecode auth.from_ = .ok none ∨
             env.getBytecode auth.from_ = .ok (some "0x")) :
    (signatureValid env auth signature asset = .ok true ↔
      ∃ recovered,
        env.recoverAddress (hashMessageRaw env h) signature = .ok recovered ∧
        toLowerStr recovered = toLowerStr auth.from_) := by
  have hbind : signatureValid env auth signature asset =
      pure (match env.recoverAddress (hashMessageRaw env h) signature with
        | .ok recovered => decide (toLowerStr recovered = toLowerStr auth.from_)
        | .error _ => false) := by
    rcases hcode with hc | hc <;> simp [signatureValid, hhash, hc, bind, Except.bind]
  rw [hbind]
  cases hrec : env.recoverAddress (hashMessageRaw env h) signature with
  | ok recovered => simp [pure, Except.pure, hrec]
  | error e => simp [pure, Except.pure, hrec]

/-- An authorization from the simple account `0xbbbb`, whose signatures the
probe environment accepts on the EIP-191 digest. -/
def probeAuthB : Authorization :=
  { from_ := "0xbbbb", to_ := "0xbbbb", value := 10000,
    validAfter := 900, validBefore := 5000, nonce := "0xnonce" }

/-- The concrete signing hash computed by the probe environment. -/
def probeSigningHash : String :=
  match eip712HashOf probeEnv probeAuthB "0xasset" with
  | .ok h => h
  | .error _ => ""

/-- C7 witness: the amended equivalence evaluated on a concrete account. -/
theorem C7_eoa_eip191_recovery_witness :
    signatureValid probeEnv probeAuthB "sig" "0xasset" = .ok true :=
  (C7_eoa_eip191_recovery probeEnv probeAuthB "sig" "0xasset" probeSigningHash rfl
    (Or.inl rfl)).mpr ⟨"0xbbbb", rfl, rfl⟩

/-- A chain environment for concrete verification runs: the domain-separator
read answers, the signer has no bytecode (simple account), recovery
depends only on the signature bytes (the true signer controls `goodsig`),
and the payer's balance is ample. -/
def sampleVerifyEnv : ChainEnv :=
  { keccak256 := fun s => "K<" ++ s ++ ">"
    domainSeparatorOf := fun _ => .ok "DS"
    getBytecode := fun _ => .ok none
    isValidSignature1271 := fun _ _ _ => .error ()
    recoverAddress := fun _ signature =>
      .ok (if signature = "goodsig" then "0xAAAA" else "0xDEAD")
    balanceOf := fun _ _ => .ok 1000000
    now := 1000 }

/-- A correctly signed baseline payload satisfying every check of
`sampleRequirements` under `sampleVerifyEnv`. -/
def sampleGoodPayload : PaymentPayload :=
  { scheme := "exact",
    authorization := { from_ := "0xaaaa", to_ := "0xbbbb", value := 10000,
                       validAfter := 900, validBefore := 5000, nonce := "0xn" },
    signature := "goodsig" }

/-- C1 (amended): mutating exactly one field of an otherwise-valid request —
the recipient, either timestamp bound, or the value, each while the
mutated authorization remains correctly signed, or a signature byte — flips
the result to `isValid:false` with the one corresponding reason of the
code's taxonomy (`invalid_exact_evm_payload_recipient_mismatch`,
`..._authorization_valid_before`, `..._authorization_valid_after`,
`..._authorization_value`, `..._signature`), and never a different
reason. -/
theorem C1_single_field_mutation (env : ChainEnv) (pp : PaymentPayload)
    (pr : PaymentRequirements)
    (hps : pp.scheme = "exact") (hrs : pr.scheme = "exact")
    (hcfg : networkLookup pr.network = some cfg)
    (hsig : signatureValid env pp.authorization pp.signature pr.asset = .ok true)
    (hto : getAddress pp.authorization.to_ = getAddress pr.payTo)
    (hvb : env.now + 6 ≤ pp.authorization.validBefore)
    (hva : pp.authorization.validAfter ≤ env.now)
    (hbal : ∀ b, env.balanceOf pr.asset pp.authorization.from_ = .ok b →
        pr.maxAmountRequired ≤ b)
    (hval : pr.maxAmountRequired ≤ pp.authorization.value) :
    verifyPaymentForKRNL env pp pr =
      { isValid := true, invalidReason := none,
        payer := some pp.authorization.from_ } ∧
    (∀ to', getAddress to' ≠ getAddress pr.payTo →
      signatureValid env { pp.authorization with to_ := to' } pp.signature pr.asset
        = .ok true →
      verifyPaymentForKRNL env
          { pp with authorization := { pp.authorization with to_ := to' } } pr =
        { isValid := false,
          invalidReason := some "invalid_exact_evm_payload_recipient_mismatch",
          payer := some pp.authorization.from_ }) ∧
    (∀ vb', vb' < env.now + 6 →
      signatureValid env { pp.authorization with validBefore := vb' } pp.signature
          pr.asset = .ok true →
      verifyPaymentForKRNL env
          { pp with authorization := { pp.authorization with validBefore := vb' } } pr =
        { isValid := false,
          invalidReason := some "invalid_exact_evm_payload_authorization_valid_before",
          payer := some pp.authorization.from_ }) ∧
    (∀ va', env.now < va' →
      signatureValid env { pp.authorization with validAfter := va' } pp.signature
          pr.asset = .ok true →
      verifyPaymentForKRNL env
          { pp with authorization := { pp.authorization with validAfter := va' } } pr =
        { isValid := false,
          invalidReason := some "invalid_exact_evm_payload_authorization_valid_after",
          payer := some pp.authorization.from_ }) ∧
    (∀ v', v' < pr.maxAmountRequired →
      signatureValid env { pp.authorization with value := v' } pp.signature pr.asset
        = .ok true →
      verifyPaymentForKRNL env
          { pp with authorization := { pp.authorization with value := v' } } pr =
        { isValid := false,
          invalidReason := some "invalid_exact_evm_payload_authorization_value",
          payer := some pp.authorization.from_ }) ∧
    (∀ signature', signatureValid env pp.authorization signature' pr.asset = .ok false →
      verifyPaymentForKRNL env { pp with signature := signature' } pr =
        { isValid := false,
          invalidReason := some "invalid_exact_evm_payload_signature",
          payer := some pp.authorization.from_ }) := by
  have hvb' : ¬ (pp.authorization.validBefore < env.now + 6) := by omega
  have hva' : ¬ (env.now < pp.authorization.validAfter) := by omega
  have hval' : ¬ (pp.authorization.value < pr.maxAmountRequired) := by omega
  refine ⟨?_, ?_, ?_, ?_, ?_, ?_⟩
  · cases hb : env.balanceOf pr.asset pp.authorization.from_ with
    | ok b =>
        have hble : ¬ (b < pr.maxAmountRequired) := by
          have := hbal b hb
          omega
        simp [verifyPaymentForKRNL, hps, hrs, hcfg, hsig, hto, hb, hble, hvb', hva',
          hval']
    | error e =>
        simp [verifyPaymentForKRNL, hps, hrs, hcfg, hsig, hto, hb, hvb', hva', hval']
  · intro to' hto' hsig'
    simp [verifyPaymentForKRNL, hps, hrs, hcfg, hsig', hto']
  · intro vb' hvb2 hsig'
    simp [verifyPaymentForKRNL, hps, hrs, hcfg, hsig', hto, hvb2]
  · intro va' hva2 hsig'
    simp [verifyPaymentForKRNL, hps, hrs, hcfg, hsig', hto, hvb', hva2]
  · intro v' hv2 hsig'
    cases hb : env.balanceOf pr.asset pp.authorization.from_ with
    | ok b =>
        have hble : ¬ (b < pr.maxAmountRequired) := by
          have := hbal b hb
          omega
        simp [verifyPaymentForKRNL, hps, hrs, hcfg, hsig', hto, hb, hble, hvb', hva',
          hv2]
    | error e =>
        simp [verifyPaymentForKRNL, hps, hrs, hcfg, hsig', hto, hb, hvb', hva', hv2]
  · intro signature' hsig'
    simp [verifyPaymentForKRNL, hps, hrs, hcfg, hsig']

/-- The payload `sampleGoodPayload` with only the recipient changed (still correctly
signed by `0xaaaa` in the sample environment). -/
def mutatedRecipientPayload : PaymentPayload :=
  { scheme := "exact",
    authorization := { from_ := "0xaaaa", to_ := "0xcccc", value := 10000,
                       validAfter := 900, validBefore := 5000, nonce := "0xn" },
    signature := "goodsig" }

/-- C1 counterexample: a request that differs from an otherwise-valid one
only in the recipient is rejected with the code's literal reason
`invalid_exact_evm_payload_recipient_mismatch` — not the name
`recipient_mismatch` that the claim takes from the spec taxonomy (the same
renaming affects the signature, both timestamp and value reasons). -/
theorem C1_counterexample :
    verifyPaymentForKRNL sampleVerifyEnv mutatedRecipientPayload sampleRequirements =
      { isValid := false,
        invalidReason := some "invalid_exact_evm_payload_recipient_mismatch",
        payer := some "0xaaaa" } ∧
    ¬ (verifyPaymentForKRNL sampleVerifyEnv mutatedRecipientPayload
        sampleRequirements).invalidReason = some "recipient_mismatch" := by
  have h1 : verifyPaymentForKRNL sampleVerifyEnv mutatedRecipientPayload
      sampleRequirements =
      { isValid := false,
        invalidReason := some "invalid_exact_evm_payload_recipient_mismatch",
        payer := some "0xaaaa" } := rfl
  refine ⟨h1, ?_⟩
  rw [h1]
  simp

/-- C1 witness: the baseline request verifies, and each of the five
single-field mutations produces exactly its own reason. -/
theorem C1_single_field_mutation_witness :
    verifyPaymentForKRNL sampleVerifyEnv sampleGoodPayload sampleRequirements =
      { isValid := true, invalidReason := none, payer := some "0xaaaa" } ∧
    verifyPaymentForKRNL sampleVerifyEnv
        { sampleGoodPayload with authorization :=
            { sampleGoodPayload.authorization with to_ := "0xcccc" } }
        sampleRequirements =
      { isValid := false,
        invalidReason := some "invalid_exact_evm_payload_recipient_mismatch",
        payer := some "0xaaaa" } ∧
    verifyPaymentForKRNL sampleVerifyEnv
        { sampleGoodPayload with authorization :=
            { sampleGoodPayload.authorization with validBefore := 1001 } }
        sampleRequirements =
      { isValid := false,
        invalidReason := some "invalid_exact_evm_payload_authorization_valid_before",
        payer := some "0xaaaa" } ∧
    verifyPaymentForKRNL sampleVerifyEnv
        { sampleGoodPayload with authorization :=
            { sampleGoodPayload.authorization with validAfter := 1001 } }
        sampleRequirements =
      { isValid := false,
        invalidReason := some "invalid_exact_evm_payload_authorization_valid_after",
        payer := some "0xaaaa" } ∧
    verifyPaymentForKRNL sampleVerifyEnv
        { sampleGoodPayload with authorization :=
            { sampleGoodPayload.authorization with value := 9999 } }
        sampleRequirements =
      { isValid := false,
        invalidReason := some "invalid_exact_evm_payload_authorization_value",
        payer := some "0xaaaa" } ∧
    verifyPaymentForKRNL sampleVerifyEnv
        { sampleGoodPayload with signature := "badsig" } sampleRequirements =
      { isValid := false,
        invalidReason := some "invalid_exact_evm_payload_signature",
        payer := some "0xaaaa" } := by
  have h := C1_single_field_mutation sampleVerifyEnv sampleGoodPayload
    sampleRequirements rfl rfl rfl rfl rfl (by decide) (by decide)
    (fun b hb => by
      rw [show b = 1000000 from (Except.ok.inj hb).symm]
      decide)
    (by decide)
  exact ⟨h.1,
    h.2.1 "0xcccc" (by decide) rfl,
    h.2.2.1 1001 (by decide) rfl,
    h.2.2.2.1 1001 (by decide) rfl,
    h.2.2.2.2.1 9999 (by decide) rfl,
    h.2.2.2.2.2 "badsig" rfl⟩

/-- The environment `sampleVerifyEnv` with the token balance read rejecting (token contract
absent on the test network). -/
def sampleVerifyEnvNoBalance : ChainEnv :=
  { keccak256 := fun s => "K<" ++ s ++ ">"
    domainSeparatorOf := fun _ => .ok "DS"
    getBytecode := fun _ => .ok none
    isValidSignature1271 := fun _ _ _ => .error ()
    recoverAddress := fun _ signature =>
      .ok (if signature = "goodsig" then "0xAAAA" else "0xDEAD")
    balanceOf := fun _ _ => .error ()
    now := 1000 }

/-- C9 witness: with the balance read rejecting and every other check
passing, the concrete request still verifies. -/
theorem C9_balance_best_effort_witness :
    (verifyPaymentForKRNL sampleVerifyEnvNoBalance sampleGoodPayload
        sampleRequirements).invalidReason ≠ some "insufficient_funds" ∧
    verifyPaymentForKRNL sampleVerifyEnvNoBalance sampleGoodPayload
        sampleRequirements =
      { isValid := true, invalidReason := none, payer := some "0xaaaa" } :=
  ⟨(C9_balance_best_effort
      { chainName := "Base Sepolia", chainId := 84532,
        usdcAddress := "0x036CbD53842c5426634e7929541eC2318f3dCF7e",
        usdcName := "USDC", usdcVersion := "2" }
      sampleVerifyEnvNoBalance sampleGoodPayload sampleRequirements rfl).1,
   (C9_balance_best_effort
      { chainName := "Base Sepolia", chainId := 84532,
        usdcAddress := "0x036CbD53842c5426634e7929541eC2318f3dCF7e",
        usdcName := "USDC", usdcVersion := "2" }
      sampleVerifyEnvNoBalance sampleGoodPayload sampleRequirements rfl).2.1
      rfl rfl rfl rfl rfl (by decide) (by decide) (by decide)⟩
